import Mathlib

/-!
Verification of the value-normalization and resilient-forwarding pipeline of
`homie-telegraf`. The definitions below are a shallow embedding of the Rust
source (`src/main.rs` of the repository, plus the legacy root `main.rs`):
string values are `String`, the `f32` metric values are modelled as exact
rationals (all vocabulary codes are decimal literals, represented exactly),
and the external float parser `str::parse::<f32>` is a parameter
`parse : String → Option ℚ` of the normalizer.
-/

namespace HomieTelegraf

/-- `in_zone_priority` (src/main.rs lines 35-40). -/
def in_zone_priority (s : String) : Bool :=
  match s with
  | "economy" | "comfort" => true
  | _ => false

/-- `in_current_mode` (src/main.rs lines 42-48). -/
def in_current_mode (s : String) : Bool :=
  match s with
  | "lockout" | "standby" | "blower" | "heating" | "heating_with_aux" | "emergency_heat"
  | "cooling" | "waiting" | "h1" | "h2" | "h3" | "c1" | "c2" => true
  | _ => false

/-- `in_target_fan_mode` (src/main.rs lines 50-55). -/
def in_target_fan_mode (s : String) : Bool :=
  match s with
  | "auto" | "continuous" | "intermittent" => true
  | _ => false

/-- `in_target_mode` (src/main.rs lines 57-62). -/
def in_target_mode (s : String) : Bool :=
  match s with
  | "off" | "auto" | "cool" | "heat" | "eheat" => true
  | _ => false

/-- `in_humidifier_mode` (src/main.rs lines 64-69). -/
def in_humidifier_mode (s : String) : Bool :=
  match s with
  | "auto" | "manual" => true
  | _ => false

/-- `current_mode_to_value` (src/main.rs lines 71-92). -/
def current_mode_to_value (s : String) : Option ℚ :=
  if in_current_mode s ≠ true then none
  else some (match s with
    | "lockout" => 1
    | "standby" => 2
    | "blower" => 3
    | "heating" => 4
    | "heating_with_aux" => 5
    | "emergency_heat" => 6
    | "cooling" => 7
    | "waiting" => 8
    | "h1" => 2.1
    | "h2" => 2.2
    | "h3" => 2.3
    | "c1" => 2.4
    | "c2" => 2.5
    | _ => 0)

/-- `humidifier_mode_to_value` (src/main.rs lines 94-104). -/
def humidifier_mode_to_value (s : String) : Option ℚ :=
  if in_humidifier_mode s ≠ true then none
  else some (match s with
    | "auto" => 1
    | "manual" => 2
    | _ => 0)

/-- `zone_priority_to_value` (src/main.rs lines 106-116). -/
def zone_priority_to_value (s : String) : Option ℚ :=
  if in_zone_priority s ≠ true then none
  else some (match s with
    | "economy" => 1
    | "comfort" => 2
    | _ => 0)

/-- `target_mode_to_value` (src/main.rs lines 118-131). -/
def target_mode_to_value (s : String) : Option ℚ :=
  if in_target_mode s ≠ true then none
  else some (match s with
    | "off" => 1
    | "auto" => 2
    | "cool" => 3
    | "heat" => 4
    | "eheat" => 5
    | _ => 0)

/-- `target_fan_mode_to_value` (src/main.rs lines 133-144). Note the match arm
for code 3 is spelled with a trailing space, exactly as in the source: the
string "intermittent" therefore falls through to the catch-all arm. -/
def target_fan_mode_to_value (s : String) : Option ℚ :=
  if in_target_fan_mode s ≠ true then none
  else some (match s with
    | "auto" => 1
    | "continuous" => 2
    | "intermittent " => 3
    | _ => 0)

/-- The tokens of the current-operating-mode vocabulary, in source order. -/
def currentModeTokens : List String :=
  ["lockout", "standby", "blower", "heating", "heating_with_aux", "emergency_heat",
   "cooling", "waiting", "h1", "h2", "h3", "c1", "c2"]

/-- The tokens of the humidifier-mode vocabulary, in source order. -/
def humidifierModeTokens : List String := ["auto", "manual"]

/-- The tokens of the target-mode vocabulary, in source order. -/
def targetModeTokens : List String := ["off", "auto", "cool", "heat", "eheat"]

/-- The tokens of the target-fan-mode vocabulary, in source order. -/
def targetFanModeTokens : List String := ["auto", "continuous", "intermittent"]

/-- The tokens of the zone-priority vocabulary, in source order. -/
def zonePriorityTokens : List String := ["economy", "comfort"]

/-- Result of one run of the normalizer: the numeric value and whether a
"could not normalize" soft failure was observed (the `error!` at line 393). -/
structure NormResult where
  value : ℚ
  couldNotNormalize : Bool
deriving DecidableEq, Repr

/-- The value-normalization match of `main` (src/main.rs lines 372-398),
with the external `str::parse::<f32>` modelled by the parameter `parse`.
The result is `none` exactly when one of the five `.unwrap()` calls would
panic; otherwise `some` of the computed value together with the
soft-failure flag of the catch-all arm. -/
def normalizeValue? (parse : String → Option ℚ) (value : String) :
    Option NormResult :=
  match parse value with
  | some val => some ⟨val, false⟩
  | none =>
    match value with
    | "true" | "open" => some ⟨1, false⟩
    | "false" | "closed" => some ⟨0, false⟩
    | s =>
      if in_current_mode s then (current_mode_to_value s).map (⟨·, false⟩)
      else if in_humidifier_mode s then (humidifier_mode_to_value s).map (⟨·, false⟩)
      else if in_target_mode s then (target_mode_to_value s).map (⟨·, false⟩)
      else if in_target_fan_mode s then (target_fan_mode_to_value s).map (⟨·, false⟩)
      else if in_zone_priority s then (zone_priority_to_value s).map (⟨·, false⟩)
      else some ⟨0, true⟩

/-- The vocabulary part of the normalizer in isolation: the guarded chain of
membership tests of lines 379-391, returning the code of the first
vocabulary whose membership test succeeds. -/
def vocabLookup (s : String) : Option ℚ :=
  if in_current_mode s then current_mode_to_value s
  else if in_humidifier_mode s then humidifier_mode_to_value s
  else if in_target_mode s then target_mode_to_value s
  else if in_target_fan_mode s then target_fan_mode_to_value s
  else if in_zone_priority s then zone_priority_to_value s
  else none

/-- The five vocabularies as (membership test, code lookup) pairs, in the
priority order of the normalizer's guard chain. -/
def vocabOrder : List ((String → Bool) × (String → Option ℚ)) :=
  [(in_current_mode, current_mode_to_value),
   (in_humidifier_mode, humidifier_mode_to_value),
   (in_target_mode, target_mode_to_value),
   (in_target_fan_mode, target_fan_mode_to_value),
   (in_zone_priority, zone_priority_to_value)]

/-- Generic first-match lookup over an ordered list of vocabularies. -/
def firstMatch (vs : List ((String → Bool) × (String → Option ℚ)))
    (s : String) : Option ℚ :=
  match vs with
  | [] => none
  | v :: rest => if v.1 s then v.2 s else firstMatch rest s

/-- How many of the five vocabularies contain `s`. -/
def membershipCount (s : String) : ℕ :=
  [in_current_mode s, in_humidifier_mode s, in_target_mode s,
   in_target_fan_mode s, in_zone_priority s].count true

/-- The `HomieMetric` point (src/main.rs lines 24-33, built at lines 371-402). -/
structure HomieMetric where
  value : ℚ
  device_id_tag : String
  node_id_tag : String
  property_id_tag : String
deriving DecidableEq, Repr

/-- A "could not normalize" observation: the `error!` at line 393 logs the
original raw value and the device/node/property context. -/
structure Observation where
  raw : String
  device : String
  node : String
  property : String
deriving DecidableEq, Repr

/-- Building the point for one property-value-changed event
(src/main.rs lines 371-402): normalize the raw value, attach the three
dimension tags, and collect the soft-failure observations emitted while
normalizing. `none` models a panic inside normalization. -/
def handlePropertyEvent (parse : String → Option ℚ)
    (device_id node_id property_id value : String) :
    Option (HomieMetric × List Observation) :=
  (normalizeValue? parse value).map fun r =>
    (⟨r.value, device_id, node_id, property_id⟩,
     if r.couldNotNormalize then [⟨value, device_id, node_id, property_id⟩] else [])

/-- The connection parameters the telegraf client is built from:
`cli.tel_host` and `cli.tel_port`. -/
structure ConnParams where
  tel_host : String
  tel_port : ℕ
deriving DecidableEq, Repr

/-- The connection string of the initial telegraf client
(src/main.rs lines 300-309): the transport is the hardcoded
`TelTransport::Udp`, which displays as "udp". -/
def initialConnString (p : ConnParams) : String :=
  "udp://" ++ p.tel_host ++ ":" ++ toString p.tel_port

/-- The connection string used when reconnecting after a failed write
(src/main.rs lines 416-419): the scheme is the hardcoded literal "tcp". -/
def reconnectConnString (p : ConnParams) : String :=
  "tcp://" ++ p.tel_host ++ ":" ++ toString p.tel_port

/-- The hardcoded retry flag `let retry = false;` (src/main.rs line 412). -/
def retryDefault : Bool := false

/-- One delivery attempt: which connection string the client in use was
built from, and which point was written. -/
structure Attempt where
  conn : String
  point : HomieMetric
deriving DecidableEq, Repr

/-- Control outcome of handling one point on the telegraf path: either the
loop continues (with the connection the client now holds), or the process
stops via `panic!`. -/
inductive WriteStatus
  | cont (conn : String)
  | fatalStop
deriving DecidableEq, Repr

/-- Result of the telegraf write-and-recover block for one point. -/
structure TelegrafWriteResult where
  status : WriteStatus
  attempts : List Attempt
  errorsLogged : ℕ
deriving DecidableEq, Repr

/-- The telegraf write-and-recover block (src/main.rs lines 405-441):
attempt the write on the current client; on failure log the error, and if
`retry` is set, drop the client, rebuild it from `reconnectConnString` and
write the same point once more, panicking if that also fails; with `retry`
unset, panic immediately. `sink c pt` models whether a write of `pt` on a
client built from connection string `c` succeeds. -/
def telegrafWritePoint (retry : Bool) (params : ConnParams) (conn : String)
    (sink : String → HomieMetric → Bool) (point : HomieMetric) :
    TelegrafWriteResult :=
  if sink conn point then ⟨.cont conn, [⟨conn, point⟩], 0⟩
  else if retry then
    let newConn := reconnectConnString params
    if sink newConn point then
      ⟨.cont newConn, [⟨conn, point⟩, ⟨newConn, point⟩], 1⟩
    else
      ⟨.fatalStop, [⟨conn, point⟩, ⟨newConn, point⟩], 2⟩
  else ⟨.fatalStop, [⟨conn, point⟩], 1⟩

/-- Processing the points of one batch in arrival order on the telegraf
path: returns the points that were delivered and whether the process
stopped before the end of the batch. -/
def processBatch (retry : Bool) (params : ConnParams)
    (sink : String → HomieMetric → Bool) :
    String → List HomieMetric → List HomieMetric × Bool
  | _, [] => ([], false)
  | conn, point :: rest =>
    match (telegrafWritePoint retry params conn sink point).status with
    | .cont newConn =>
      let r := processBatch retry params sink newConn rest
      (point :: r.1, r.2)
    | .fatalStop => ([], true)

/-- Outcome of the influx write branch for one point. -/
structure InfluxOutcome where
  continuesLoop : Bool
  errorLogged : Bool
  reconnectsAttempted : ℕ
deriving DecidableEq, Repr

/-- The influx write branch (src/main.rs lines 442-467): the write result is
matched, both arms only log, and the dispatch loop continues either way; no
reconnect is constructed. -/
def influxWritePoint (writeOk : Bool) : InfluxOutcome :=
  if writeOk then ⟨true, false, 0⟩ else ⟨true, true, 0⟩

/-- Processing the points of one batch on the influx path: every point is
handled and the loop never stops. -/
def processBatchInflux (sink : HomieMetric → Bool) :
    List HomieMetric → List InfluxOutcome
  | [] => []
  | point :: rest => influxWritePoint (sink point) :: processBatchInflux sink rest

/-- An event delivered by one poll of the Homie controller. -/
inductive Event
  | propertyValueChanged (device_id node_id property_id value : String)
      (fresh : Bool)
  | other
deriving DecidableEq, Repr

/-- Outcome of one `controller.poll` call: a batch of events, or an error. -/
inductive PollOutcome
  | ok (events : List Event)
  | pollErr
deriving DecidableEq, Repr

/-- What the dispatch loop does next after one poll. -/
inductive LoopStep
  | handleBatch (events : List Event)
  | exitProcess (code : ℕ)
  | continuePolling
deriving DecidableEq, Repr

/-- The dispatch reaction of the main program (src/main.rs lines 357-486):
a batch is handled; a poll error is logged and the process exits with
code 1 (lines 481-484). -/
def dispatchStep (r : PollOutcome) : LoopStep :=
  match r with
  | .ok events => .handleBatch events
  | .pollErr => .exitProcess 1

/-- The dispatch reaction of the legacy root `main.rs` (line 86): a poll
error is only logged and the loop returns to polling. -/
def legacyDispatchStep (r : PollOutcome) : LoopStep :=
  match r with
  | .ok events => .handleBatch events
  | .pollErr => .continuePolling

/-! ### Vocabulary characterizations -/

/-- Membership in the current-operating-mode vocabulary is membership in its
token list. -/
theorem in_current_mode_iff (s : String) :
    in_current_mode s = true ↔ s ∈ currentModeTokens := by
  unfold in_current_mode
  constructor
  · intro h
    split at h
    all_goals first | decide | simp_all
  · intro h
    fin_cases h <;> rfl

/-- Membership in the humidifier-mode vocabulary is membership in its token
list. -/
theorem in_humidifier_mode_iff (s : String) :
    in_humidifier_mode s = true ↔ s ∈ humidifierModeTokens := by
  unfold in_humidifier_mode
  constructor
  · intro h
    split at h
    all_goals first | decide | simp_all
  · intro h
    fin_cases h <;> rfl

/-- Membership in the target-mode vocabulary is membership in its token
list. -/
theorem in_target_mode_iff (s : String) :
    in_target_mode s = true ↔ s ∈ targetModeTokens := by
  unfold in_target_mode
  constructor
  · intro h
    split at h
    all_goals first | decide | simp_all
  · intro h
    fin_cases h <;> rfl

/-- Membership in the target-fan-mode vocabulary is membership in its token
list. -/
theorem in_target_fan_mode_iff (s : String) :
    in_target_fan_mode s = true ↔ s ∈ targetFanModeTokens := by
  unfold in_target_fan_mode
  constructor
  · intro h
    split at h
    all_goals first | decide | simp_all
  · intro h
    fin_cases h <;> rfl

/-- Membership in the zone-priority vocabulary is membership in its token
list. -/
theorem in_zone_priority_iff (s : String) :
    in_zone_priority s = true ↔ s ∈ zonePriorityTokens := by
  unfold in_zone_priority
  constructor
  · intro h
    split at h
    all_goals first | decide | simp_all
  · intro h
    fin_cases h <;> rfl

/-- A current-operating-mode member always has a code. -/
theorem current_mode_isSome (s : String) (h : in_current_mode s = true) :
    (current_mode_to_value s).isSome = true := by
  simp [current_mode_to_value, h]

/-- A humidifier-mode member always has a code. -/
theorem humidifier_mode_isSome (s : String) (h : in_humidifier_mode s = true) :
    (humidifier_mode_to_value s).isSome = true := by
  simp [humidifier_mode_to_value, h]

/-- A target-mode member always has a code. -/
theorem target_mode_isSome (s : String) (h : in_target_mode s = true) :
    (target_mode_to_value s).isSome = true := by
  simp [target_mode_to_value, h]

/-- A target-fan-mode member always has a code. -/
theorem target_fan_mode_isSome (s : String) (h : in_target_fan_mode s = true) :
    (target_fan_mode_to_value s).isSome = true := by
  simp [target_fan_mode_to_value, h]

/-- A zone-priority member always has a code. -/
theorem zone_priority_isSome (s : String) (h : in_zone_priority s = true) :
    (zone_priority_to_value s).isSome = true := by
  simp [zone_priority_to_value, h]

/-- The normalizer never reaches a `None.unwrap()`: its model is total. -/
theorem normalizeValue?_isSome (parse : String → Option ℚ) (s : String) :
    (normalizeValue? parse s).isSome = true := by
  unfold normalizeValue?
  split
  · rfl
  · split
    any_goals rfl
    split
    · rename_i h
      obtain ⟨v, hv⟩ := Option.isSome_iff_exists.mp (current_mode_isSome _ h)
      rw [hv]
      rfl
    · split
      · rename_i h
        obtain ⟨v, hv⟩ := Option.isSome_iff_exists.mp (humidifier_mode_isSome _ h)
        rw [hv]
        rfl
      · split
        · rename_i h
          obtain ⟨v, hv⟩ := Option.isSome_iff_exists.mp (target_mode_isSome _ h)
          rw [hv]
          rfl
        · split
          · rename_i h
            obtain ⟨v, hv⟩ := Option.isSome_iff_exists.mp (target_fan_mode_isSome _ h)
            rw [hv]
            rfl
          · split
            · rename_i h
              obtain ⟨v, hv⟩ := Option.isSome_iff_exists.mp (zone_priority_isSome _ h)
              rw [hv]
              rfl
            · rfl

/-- An unparseable, non-boolean, non-vocabulary value normalizes to `0`
with the soft-failure flag set. -/
theorem normalize_soft_failure (parse : String → Option ℚ) (s : String)
    (hp : parse s = none)
    (h1 : s ≠ "true") (h2 : s ≠ "open") (h3 : s ≠ "false") (h4 : s ≠ "closed")
    (m1 : in_current_mode s = false) (m2 : in_humidifier_mode s = false)
    (m3 : in_target_mode s = false) (m4 : in_target_fan_mode s = false)
    (m5 : in_zone_priority s = false) :
    normalizeValue? parse s = some ⟨0, true⟩ := by
  unfold normalizeValue?
  rw [hp]
  split
  · simp_all
  · simp_all

/-- After a failed parse and the boolean-literal step, the normalizer is the
guarded vocabulary chain. -/
theorem normalize_eq_vocabLookup (parse : String → Option ℚ) (s : String)
    (hp : parse s = none)
    (h1 : s ≠ "true") (h2 : s ≠ "open") (h3 : s ≠ "false") (h4 : s ≠ "closed") :
    normalizeValue? parse s =
      match vocabLookup s with
      | some v => some ⟨v, false⟩
      | none => some ⟨0, true⟩ := by
  unfold normalizeValue?
  rw [hp]
  split
  · rename_i heq
    exact absurd heq (by simp)
  · split
    · exact absurd rfl h1
    · exact absurd rfl h2
    · exact absurd rfl h3
    · exact absurd rfl h4
    · rename_i t c1 c2 c3 c4
      split
      · rename_i m1
        obtain ⟨v, hv⟩ := Option.isSome_iff_exists.mp (current_mode_isSome s m1)
        simp [vocabLookup, m1, hv]
      · rename_i m1
        split
        · rename_i m2
          obtain ⟨v, hv⟩ := Option.isSome_iff_exists.mp (humidifier_mode_isSome s m2)
          simp [vocabLookup, m1, m2, hv]
        · rename_i m2
          split
          · rename_i m3
            obtain ⟨v, hv⟩ := Option.isSome_iff_exists.mp (target_mode_isSome s m3)
            simp [vocabLookup, m1, m2, m3, hv]
          · rename_i m3
            split
            · rename_i m4
              obtain ⟨v, hv⟩ := Option.isSome_iff_exists.mp (target_fan_mode_isSome s m4)
              simp [vocabLookup, m1, m2, m3, m4, hv]
            · rename_i m4
              split
              · rename_i m5
                obtain ⟨v, hv⟩ := Option.isSome_iff_exists.mp (zone_priority_isSome s m5)
                simp [vocabLookup, m1, m2, m3, m4, m5, hv]
              · rename_i m5
                simp [vocabLookup, m1, m2, m3, m4, m5]

/-- A string other than "auto" is a member of at most one vocabulary. -/
theorem membershipCount_le_one (s : String) (hne : s ≠ "auto") :
    membershipCount s ≤ 1 := by
  by_cases c1 : in_current_mode s = true
  · have hs := (in_current_mode_iff s).mp c1
    fin_cases hs <;> first | exact absurd rfl hne | decide
  · by_cases c2 : in_humidifier_mode s = true
    · have hs := (in_humidifier_mode_iff s).mp c2
      fin_cases hs <;> first | exact absurd rfl hne | decide
    · by_cases c3 : in_target_mode s = true
      · have hs := (in_target_mode_iff s).mp c3
        fin_cases hs <;> first | exact absurd rfl hne | decide
      · by_cases c4 : in_target_fan_mode s = true
        · have hs := (in_target_fan_mode_iff s).mp c4
          fin_cases hs <;> first | exact absurd rfl hne | decide
        · by_cases c5 : in_zone_priority s = true
          · have hs := (in_zone_priority_iff s).mp c5
            fin_cases hs <;> first | exact absurd rfl hne | decide
          · rw [Bool.not_eq_true] at c1 c2 c3 c4 c5
            simp [membershipCount, c1, c2, c3, c4, c5]

/-! ### Claims -/

/-- Claim C1 (evidence of the code bug): the normalizer maps the scenario
tokens as the code does — "heating_with_aux" to 5, "h2" to 2.2, "eheat" to 5,
"auto" to 1 via humidifier-mode precedence, "continuous" to 2 — but
"intermittent" maps to 0, not the 3 the claim states, because the source's
match arm for code 3 is spelled "intermittent " with a trailing space and is
therefore dead. -/
theorem C1_intermittent_normalizes_to_zero :
    normalizeValue? (fun _ => none) "heating_with_aux" = some ⟨5, false⟩ ∧
    normalizeValue? (fun _ => none) "h2" = some ⟨2.2, false⟩ ∧
    normalizeValue? (fun _ => none) "eheat" = some ⟨5, false⟩ ∧
    normalizeValue? (fun _ => none) "auto" = some ⟨1, false⟩ ∧
    normalizeValue? (fun _ => none) "continuous" = some ⟨2, false⟩ ∧
    in_target_fan_mode "intermittent" = true ∧
    target_fan_mode_to_value "intermittent" = some 0 ∧
    normalizeValue? (fun _ => none) "intermittent" = some ⟨0, false⟩ ∧
    normalizeValue? (fun _ => none) "intermittent" ≠ some ⟨3, false⟩ := by
  refine ⟨rfl, rfl, rfl, rfl, rfl, rfl, rfl, rfl, ?_⟩
  rw [show normalizeValue? (fun _ => none) "intermittent" = some ⟨0, false⟩ from rfl]
  intro hcontra
  have hval : (0 : ℚ) = 3 := congrArg NormResult.value (Option.some.inj hcontra)
  norm_num at hval

/-- Claim C2 counterexample: the shipped vocabularies are not pairwise
disjoint — the token "auto" belongs to the humidifier-mode, target-mode and
target-fan-mode vocabularies at once. -/
theorem C2_counterexample_auto_shared :
    in_humidifier_mode "auto" = true ∧ in_target_mode "auto" = true ∧
    in_target_fan_mode "auto" = true :=
  ⟨rfl, rfl, rfl⟩

/-- Claim C2 (amended): for a value failing float parse and the boolean
step, the normalizer is first-match lookup over the vocabularies in the
fixed order current-operating-mode, humidifier-mode, target-mode,
target-fan-mode, zone-priority; the vocabularies are not pairwise disjoint:
"auto" is the unique token shared by several vocabularies (it belongs to
exactly three), and the order resolves it deterministically. -/
theorem C2_vocab_priority_first_match :
    (∀ s, vocabLookup s = firstMatch vocabOrder s) ∧
    (∀ (parse : String → Option ℚ) (s : String),
      parse s = none → s ≠ "true" → s ≠ "open" → s ≠ "false" → s ≠ "closed" →
      normalizeValue? parse s =
        match vocabLookup s with
        | some v => some ⟨v, false⟩
        | none => some ⟨0, true⟩) ∧
    (∀ s, 2 ≤ membershipCount s → s = "auto") ∧
    membershipCount "auto" = 3 := by
  refine ⟨fun s => rfl, normalize_eq_vocabLookup, fun s h => ?_, rfl⟩
  by_contra hne
  have := membershipCount_le_one s hne
  omega

/-- Witness for C2 at the concrete token "eheat". -/
theorem C2_witness :
    normalizeValue? (fun _ => none) "eheat" =
      (match vocabLookup "eheat" with
       | some v => some ⟨v, false⟩
       | none => some ⟨0, true⟩) :=
  C2_vocab_priority_first_match.2.1 (fun _ => none) "eheat" rfl
    (by decide) (by decide) (by decide) (by decide)

/-- Any prefix of successfully written points is delivered on the same
connection, and the batch stops at the first failed write when retry is
disabled. -/
theorem processBatch_stops_at_failure (params : ConnParams)
    (sink : String → HomieMetric → Bool) (conn : String)
    (q : HomieMetric) (post : List HomieMetric) (hq : sink conn q = false) :
    ∀ pre : List HomieMetric, (∀ p ∈ pre, sink conn p = true) →
      processBatch retryDefault params sink conn (pre ++ q :: post) = (pre, true) := by
  intro pre
  induction pre with
  | nil =>
    intro _
    simp [processBatch, telegrafWritePoint, hq, retryDefault]
  | cons p ps ih =>
    intro hpre
    have hp : sink conn p = true := hpre p (List.mem_cons_self p ps)
    have ih2 := ih fun x hx => hpre x (List.mem_cons_of_mem p hx)
    simp [processBatch, telegrafWritePoint, hp, ih2]

/-- Claim C3: with the hardcoded default `retry = false`, a failed telegraf
write is terminal — the failure is logged once, the process stops, and no
point after the failing one in the batch is processed. -/
theorem C3_default_write_failure_terminal (params : ConnParams)
    (sink : String → HomieMetric → Bool) (conn : String)
    (pre : List HomieMetric) (q : HomieMetric) (post : List HomieMetric)
    (hpre : ∀ p ∈ pre, sink conn p = true) (hq : sink conn q = false) :
    processBatch retryDefault params sink conn (pre ++ q :: post) = (pre, true) ∧
    (telegrafWritePoint retryDefault params conn sink q).status = .fatalStop ∧
    (telegrafWritePoint retryDefault params conn sink q).errorsLogged = 1 := by
  refine ⟨processBatch_stops_at_failure params sink conn q post hq pre hpre, ?_, ?_⟩
  · simp [telegrafWritePoint, hq, retryDefault]
  · simp [telegrafWritePoint, hq, retryDefault]

/-- Witness for C3 on a concrete three-point batch whose second write
fails. -/
theorem C3_witness :
    processBatch retryDefault ⟨"192.168.1.158", 5094⟩
        (fun _ p => p.node_id_tag == "ok") "udp://192.168.1.158:5094"
        ([⟨1, "d", "ok", "t"⟩] ++ ⟨2, "d", "bad", "t"⟩ :: [⟨3, "d", "ok", "t"⟩]) =
      ([⟨1, "d", "ok", "t"⟩], true) :=
  (C3_default_write_failure_terminal ⟨"192.168.1.158", 5094⟩
    (fun _ p => p.node_id_tag == "ok") "udp://192.168.1.158:5094"
    [⟨1, "d", "ok", "t"⟩] ⟨2, "d", "bad", "t"⟩ [⟨3, "d", "ok", "t"⟩]
    (by decide) (by decide)).1

/-- Claim C4 counterexample: the reconnect connection string is not built
from the same parameters as the original connection — the original client
is constructed over UDP, the reconnect over TCP. -/
theorem C4_counterexample_reconnect_not_same :
    reconnectConnString ⟨"192.168.1.158", 5094⟩ ≠
      initialConnString ⟨"192.168.1.158", 5094⟩ := by
  decide

/-- Claim C4 (amended): when retry is enabled and a write fails, the writer
performs exactly one recovery attempt — it rebuilds the client from the same
host and port but over TCP (`reconnectConnString`, while the original client
is built over UDP) and writes the same point exactly once more; if that
retry fails the outcome is fatal, otherwise the loop continues on the new
connection. -/
theorem C4_retry_single_tcp_reconnect (params : ConnParams) (conn : String)
    (sink : String → HomieMetric → Bool) (point : HomieMetric)
    (hfail : sink conn point = false) :
    (telegrafWritePoint true params conn sink point).attempts =
      [⟨conn, point⟩, ⟨reconnectConnString params, point⟩] ∧
    (sink (reconnectConnString params) point = false →
      (telegrafWritePoint true params conn sink point).status = .fatalStop) ∧
    (sink (reconnectConnString params) point = true →
      (telegrafWritePoint true params conn sink point).status =
        .cont (reconnectConnString params)) := by
  refine ⟨?_, fun h2 => ?_, fun h2 => ?_⟩
  · by_cases h2 : sink (reconnectConnString params) point = true <;>
      simp [telegrafWritePoint, hfail, h2]
  · simp [telegrafWritePoint, hfail, h2]
  · simp [telegrafWritePoint, hfail, h2]

/-- Witness for C4 with a sink that always fails. -/
theorem C4_witness :
    (telegrafWritePoint true ⟨"h", 1⟩ "udp://h:1" (fun _ _ => false)
        ⟨0, "d", "n", "p"⟩).status = .fatalStop :=
  (C4_retry_single_tcp_reconnect ⟨"h", 1⟩ "udp://h:1" (fun _ _ => false)
      ⟨0, "d", "n", "p"⟩ rfl).2.1 rfl

/-- Claim C5: every membership test agrees with its code lookup — a member
string always has a defined code — and consequently the normalizer's guarded
unwrap chain is total: it never reaches a panic for any input string. -/
theorem C5_membership_code_agreement (s : String) :
    (in_current_mode s = true → (current_mode_to_value s).isSome = true) ∧
    (in_humidifier_mode s = true → (humidifier_mode_to_value s).isSome = true) ∧
    (in_target_mode s = true → (target_mode_to_value s).isSome = true) ∧
    (in_target_fan_mode s = true → (target_fan_mode_to_value s).isSome = true) ∧
    (in_zone_priority s = true → (zone_priority_to_value s).isSome = true) ∧
    (∀ parse : String → Option ℚ, (normalizeValue? parse s).isSome = true) :=
  ⟨current_mode_isSome s, humidifier_mode_isSome s, target_mode_isSome s,
   target_fan_mode_isSome s, zone_priority_isSome s,
   fun parse => normalizeValue?_isSome parse s⟩

/-- Witness for C5 at the member "h2" and an arbitrary non-member. -/
theorem C5_witness :
    (current_mode_to_value "h2").isSome = true ∧
    (normalizeValue? (fun _ => none) "anything").isSome = true :=
  ⟨(C5_membership_code_agreement "h2").1 rfl,
   (C5_membership_code_agreement "anything").2.2.2.2.2 (fun _ => none)⟩

/-- Claim C6: a value that parses directly as a float is returned unchanged,
with no soft failure, regardless of its spelling. -/
theorem C6_float_passthrough (parse : String → Option ℚ) (s : String) (v : ℚ)
    (hp : parse s = some v) :
    normalizeValue? parse s = some ⟨v, false⟩ := by
  unfold normalizeValue?
  rw [hp]

/-- Witness for C6, including a vocabulary token and a boolean literal as
the input string. -/
theorem C6_witness :
    normalizeValue? (fun _ => some (7 / 2)) "3.5" = some ⟨7 / 2, false⟩ ∧
    normalizeValue? (fun _ => some 42) "auto" = some ⟨42, false⟩ ∧
    normalizeValue? (fun _ => some 42) "true" = some ⟨42, false⟩ :=
  ⟨C6_float_passthrough _ "3.5" _ rfl, C6_float_passthrough _ "auto" _ rfl,
   C6_float_passthrough _ "true" _ rfl⟩

/-- Claim C7: a value that fails float parsing, is no boolean literal and
belongs to no vocabulary normalizes to 0 with exactly one soft-failure
observation carrying the original value and the device/node/property
context; the result is `some`, so the batch continues. -/
theorem C7_soft_failure_single_observation (parse : String → Option ℚ)
    (device_id node_id property_id s : String) (hp : parse s = none)
    (h1 : s ≠ "true") (h2 : s ≠ "open") (h3 : s ≠ "false") (h4 : s ≠ "closed")
    (m1 : in_current_mode s = false) (m2 : in_humidifier_mode s = false)
    (m3 : in_target_mode s = false) (m4 : in_target_fan_mode s = false)
    (m5 : in_zone_priority s = false) :
    handlePropertyEvent parse device_id node_id property_id s =
      some (⟨0, device_id, node_id, property_id⟩,
            [⟨s, device_id, node_id, property_id⟩]) := by
  unfold handlePropertyEvent
  rw [normalize_soft_failure parse s hp h1 h2 h3 h4 m1 m2 m3 m4 m5]
  rfl

/-- Witness for C7 at the unnormalizable value "gibberish". -/
theorem C7_witness :
    handlePropertyEvent (fun _ => none) "dev" "node" "prop" "gibberish" =
      some (⟨0, "dev", "node", "prop"⟩, [⟨"gibberish", "dev", "node", "prop"⟩]) :=
  C7_soft_failure_single_observation (fun _ => none) "dev" "node" "prop"
    "gibberish" rfl (by decide) (by decide) (by decide) (by decide)
    rfl rfl rfl rfl rfl

/-- Claim C8: the boolean literals map as specified — "true" and "open" to
1.0, "false" and "closed" to 0.0 — whenever they fail direct float parsing
(which they always do for the real `f32` parser). -/
theorem C8_boolean_literal_values (parse : String → Option ℚ)
    (ht : parse "true" = none) (ho : parse "open" = none)
    (hf : parse "false" = none) (hc : parse "closed" = none) :
    normalizeValue? parse "true" = some ⟨1, false⟩ ∧
    normalizeValue? parse "open" = some ⟨1, false⟩ ∧
    normalizeValue? parse "false" = some ⟨0, false⟩ ∧
    normalizeValue? parse "closed" = some ⟨0, false⟩ := by
  refine ⟨?_, ?_, ?_, ?_⟩ <;> unfold normalizeValue?
  · rw [ht]
    rfl
  · rw [ho]
    rfl
  · rw [hf]
    rfl
  · rw [hc]
    rfl

/-- Witness for C8 with a parser that rejects everything. -/
theorem C8_witness :
    normalizeValue? (fun _ => none) "true" = some ⟨1, false⟩ ∧
    normalizeValue? (fun _ => none) "open" = some ⟨1, false⟩ ∧
    normalizeValue? (fun _ => none) "false" = some ⟨0, false⟩ ∧
    normalizeValue? (fun _ => none) "closed" = some ⟨0, false⟩ :=
  C8_boolean_literal_values (fun _ => none) rfl rfl rfl rfl

/-- Claim C9 counterexample: in the main program the dispatch loop does not
return to polling on a poll error. -/
theorem C9_counterexample_poll_error_exits :
    ¬ dispatchStep PollOutcome.pollErr = LoopStep.continuePolling := by
  decide

/-- Claim C9 (amended): in the main program every poll fetch error is
escalated as fatal — the loop logs it and exits the process with code 1 —
while only the legacy root `main.rs` logs the error and returns to
polling. -/
theorem C9_poll_error_always_fatal :
    dispatchStep PollOutcome.pollErr = LoopStep.exitProcess 1 ∧
    legacyDispatchStep PollOutcome.pollErr = LoopStep.continuePolling :=
  ⟨rfl, rfl⟩

/-- Claim C10: on the Influx path a failed write is only logged — the loop
continues with the next event, no reconnect is constructed, every point of a
batch is handled — whereas the Telegraf path with the default retry flag is
fatal on the first failed write. -/
theorem C10_influx_failure_only_logged :
    (∀ ok : Bool, (influxWritePoint ok).continuesLoop = true ∧
      (influxWritePoint ok).reconnectsAttempted = 0) ∧
    (influxWritePoint false).errorLogged = true ∧
    (∀ (sink : HomieMetric → Bool) (pts : List HomieMetric),
      (processBatchInflux sink pts).length = pts.length) ∧
    (∀ (params : ConnParams) (conn : String)
      (sink : String → HomieMetric → Bool) (point : HomieMetric),
      sink conn point = false →
      (telegrafWritePoint retryDefault params conn sink point).status =
        .fatalStop) := by
  refine ⟨fun ok => ?_, rfl, fun sink pts => ?_, fun params conn sink point h => ?_⟩
  · cases ok <;> exact ⟨rfl, rfl⟩
  · induction pts with
    | nil => rfl
    | cons p ps ih => simp [processBatchInflux, ih]
  · simp [telegrafWritePoint, retryDefault, h]

/-- Witness for C10: a failed influx write continues, a failed telegraf
write with the default flag is fatal. -/
theorem C10_witness :
    (influxWritePoint false).continuesLoop = true ∧
    (telegrafWritePoint retryDefault ⟨"h", 1⟩ "udp://h:1" (fun _ _ => false)
        ⟨0, "d", "n", "p"⟩).status = .fatalStop :=
  ⟨(C10_influx_failure_only_logged.1 false).1,
   C10_influx_failure_only_logged.2.2.2 ⟨"h", 1⟩ "udp://h:1" (fun _ _ => false)
     ⟨0, "d", "n", "p"⟩ rfl⟩

end HomieTelegraf
